import Mathlib

/-!
Verification of the Logistics Data Extractor front end.

The development shallowly embeds the React front end of the repository:
`src/frontend/src/App.tsx` (application shell state and the
`handleFilesSelected` submission flow), `src/frontend/src/main.tsx`
(axios base-URL configuration), `src/frontend/src/components/FileUpload.tsx`
(drop / file-picker intake gating), `src/frontend/src/components/ExtractionForm.tsx`
(the editable form and its save action), and the `DocViewer` component
(tab strip, PDF page navigation, spreadsheet preview).

Files are represented by their display names (a `String`); file contents are
irrelevant to every property proved here.  Asynchronous requests are embedded
by passing the eventual outcome (`Option ShipmentData`: `some` = 2xx body,
`none` = network/HTTP failure) to the handler, which returns the settled
state together with the list of observable effects (alerts and POSTs) the
handler performed, in order.
-/

namespace LogisticsExtractor

/-- JavaScript `String.prototype.toLowerCase`, modelled characterwise on the
ASCII range (all file extensions compared in the sources are ASCII). -/
def jsToLowerCase (s : String) : String :=
  String.mk (s.toList.map Char.toLower)

/-- JavaScript `String.prototype.endsWith`, modelled on the character list. -/
def jsEndsWith (s pat : String) : Bool :=
  pat.toList.isSuffixOf s.toList

/-- Extracted shipment record, from the `ShipmentData` interface of
`ExtractionForm.tsx` (ten nullable fields; JavaScript numbers are modelled
as integers for the count and rationals for the amounts — no claim computes
with them). -/
structure ShipmentData where
  bill_of_lading_number : Option String
  container_number : Option String
  consignee_name : Option String
  consignee_address : Option String
  date_of_export : Option String
  line_items_count : Option Int
  total_gross_weight : Option Rat
  total_invoice_amount : Option Rat
  average_gross_weight : Option Rat
  average_price : Option Rat
  deriving Repr, DecidableEq

/-- An all-null shipment record, used to instantiate theorems at concrete
inputs. -/
def emptyShipment : ShipmentData :=
  ⟨none, none, none, none, none, none, none, none, none, none⟩

/-- Application-shell state, from the four `useState` hooks of `App.tsx`
(`files`, `activeFileIndex`, `data`, `isLoading`). -/
structure AppState where
  files : List String
  activeFileIndex : Nat
  data : Option ShipmentData
  isLoading : Bool
  deriving Repr, DecidableEq

/-- Initial application-shell state (`useState` initialisers in `App.tsx`). -/
def initialState : AppState :=
  { files := [], activeFileIndex := 0, data := none, isLoading := false }

/-- Observable effects of the submission flow: the validation `alert`, the
extraction POST (URL and multipart parts, one `(fieldName, file)` pair per
part), and the failure `alert` of the catch block. -/
inductive Event where
  | validationAlert : Event
  | extractPost (url : String) (parts : List (String × String)) : Event
  | failureAlert : Event
  deriving Repr, DecidableEq

/-- Validation predicate of `App.tsx` line 17: some selected file name,
lower-cased, ends with `.pdf`. -/
def hasPdf (selectedFiles : List String) : Bool :=
  selectedFiles.any (fun f => jsEndsWith (jsToLowerCase f) ".pdf")

/-- Validation predicate of `App.tsx` line 18: some selected file name,
lower-cased, ends with `.xlsx` or `.xls`. -/
def hasExcel (selectedFiles : List String) : Bool :=
  selectedFiles.any (fun f =>
    jsEndsWith (jsToLowerCase f) ".xlsx" || jsEndsWith (jsToLowerCase f) ".xls")

/-- Requested URL of the extraction POST, exactly as written in `App.tsx`
line 37: an absolute URL naming a fixed origin. -/
def extractEndpointURL : String := "http://localhost:8000/process-documents"

/-- Multipart form body built in `App.tsx` lines 31-34: one part per selected
file, all under the shared field name `files`. -/
def extractFormData (selectedFiles : List String) : List (String × String) :=
  selectedFiles.map (fun f => ("files", f))

/-- Shell state immediately after the synchronous prefix of
`handleFilesSelected` on an accepted selection (`App.tsx` lines 25-29):
`setFiles(selectedFiles)`, `setIsLoading(true)`, `setData(null)` — the state
in which the extraction request is issued. -/
def submitState (s : AppState) (selectedFiles : List String) : AppState :=
  { s with files := selectedFiles, isLoading := true, data := none }

/-- Settling of the extraction request (`App.tsx` lines 36-48): on success
the record is replaced wholesale by the response body, on failure it is left
untouched; the `finally` block clears the loading flag on both paths. -/
def settle (pre : AppState) (outcome : Option ShipmentData) : AppState :=
  match outcome with
  | some d => { pre with data := some d, isLoading := false }
  | none => { pre with isLoading := false }

/-- The `handleFilesSelected` handler of `App.tsx` lines 15-49, embedded with
the request outcome as an explicit parameter.  Returns the settled shell
state and the ordered list of observable effects. -/
def handleFilesSelected (s : AppState) (selectedFiles : List String)
    (outcome : Option ShipmentData) : AppState × List Event :=
  if !hasPdf selectedFiles || !hasExcel selectedFiles then
    (s, [Event.validationAlert])
  else
    let pre := submitState s selectedFiles
    match outcome with
    | some d => (settle pre (some d),
        [Event.extractPost extractEndpointURL (extractFormData selectedFiles)])
    | none => (settle pre none,
        [Event.extractPost extractEndpointURL (extractFormData selectedFiles),
         Event.failureAlert])

/-- The `handleDrop` handler of `FileUpload.tsx` lines 10-16: while a request
is in flight the drop event is ignored; otherwise the dropped files are
forwarded to `handleFilesSelected`. -/
def handleDrop (s : AppState) (dropped : List String)
    (outcome : Option ShipmentData) : AppState × List Event :=
  if s.isLoading then (s, []) else handleFilesSelected s dropped outcome

/-- The `handleChange` handler of `FileUpload.tsx` lines 18-23: the picker's
file list may be absent (`e.target.files` null); the callback fires only when
files are present and no request is in flight. -/
def handleChange (s : AppState) (targetFiles : Option (List String))
    (outcome : Option ShipmentData) : AppState × List Event :=
  match targetFiles with
  | some fs => if s.isLoading then (s, []) else handleFilesSelected s fs outcome
  | none => (s, [])

/-- The Reset / New Upload button of `App.tsx` lines 56-64: rendered only
when the file set is non-empty, disabled while loading, and on click sets the
file set to `[]` (nothing else). -/
def resetClick (s : AppState) : AppState :=
  if s.files.isEmpty || s.isLoading then s else { s with files := [] }

/-- A click on the tab of file `i` in the `DocViewer` tab strip: the strip
renders one tab per file, so only indices below the list length are
clickable; a click sets the Active Selection Index. -/
def tabClick (s : AppState) (i : Nat) : AppState :=
  if i < s.files.length then { s with activeFileIndex := i } else s

/-- Reachable application-shell states under the rendered UI: uploads (drop
or picker) are possible only while the intake surface is mounted, i.e. while
the file set is empty; the in-flight state `submitState` is reachable whenever
an accepted upload is submitted; Reset and tab clicks carry their own guards. -/
inductive Reachable : AppState → Prop where
  | init : Reachable initialState
  | upload (s : AppState) (fs : List String) (o : Option ShipmentData) :
      Reachable s → s.files = [] → Reachable (handleDrop s fs o).1
  | pick (s : AppState) (tf : Option (List String)) (o : Option ShipmentData) :
      Reachable s → s.files = [] → Reachable (handleChange s tf o).1
  | inFlight (s : AppState) (fs : List String) :
      Reachable s → s.files = [] → s.isLoading = false →
      hasPdf fs = true → hasExcel fs = true → Reachable (submitState s fs)
  | reset (s : AppState) : Reachable s → Reachable (resetClick s)
  | tab (s : AppState) (i : Nat) : Reachable s → Reachable (tabClick s i)

/-! DocViewer (per-file render state, activation effect, rendered pane). -/

/-- Per-file render state of `DocViewer` (`numPages`, `pageNumber`, `fileUrl`,
`excelData` hooks). -/
structure RenderState where
  numPages : Nat
  pageNumber : Nat
  fileUrl : Option String
  excelData : Option (List (List String))
  deriving Repr, DecidableEq

/-- Render state produced by the reset prefix of the `DocViewer` activation
effect (its lines 25-29). -/
def resetRenderState : RenderState :=
  { numPages := 0, pageNumber := 1, fileUrl := none, excelData := none }

/-- Object URL created for a PDF blob (`URL.createObjectURL`), modelled as a
tag on the file name. -/
def createObjectURL (f : String) : String := "blob:" ++ f

/-- Asynchronous content load started by the activation effect: none, or the
spreadsheet read of the `FileReader` branch. -/
inductive LoadAction where
  | noLoad : LoadAction
  | readExcel (file : String) : LoadAction
  deriving Repr, DecidableEq

/-- The `DocViewer` activation effect (`useEffect` on `activeFile`,
lines 23-50): when a file is active, every per-file render field is reset
first, then the lower-cased name's extension selects the branch — PDF gets a
fresh object URL synchronously, a spreadsheet starts an asynchronous read,
anything else loads nothing.  When no file is active the effect body is
skipped. -/
def docViewerEffect (prev : RenderState) (activeFile : Option String) :
    RenderState × LoadAction :=
  match activeFile with
  | none => (prev, LoadAction.noLoad)
  | some f =>
      let lowerName := jsToLowerCase f
      if jsEndsWith lowerName ".pdf" then
        ({ resetRenderState with fileUrl := some (createObjectURL f) },
         LoadAction.noLoad)
      else if jsEndsWith lowerName ".xlsx" || jsEndsWith lowerName ".xls" then
        (resetRenderState, LoadAction.readExcel f)
      else
        (resetRenderState, LoadAction.noLoad)

/-- Completion of the spreadsheet read (`reader.onload`): parsed rows replace
the `excelData` state. -/
def excelReaderOnLoad (rs : RenderState) (rows : List (List String)) :
    RenderState :=
  { rs with excelData := some rows }

/-- What the `DocViewer` body renders. -/
inductive ViewerPane where
  | noDocument : ViewerPane
  | pdfPane (url : String) (pageNumber : Nat) : ViewerPane
  | excelPane (rows : List (List String)) : ViewerPane
  | placeholder (name : String) : ViewerPane
  deriving Repr, DecidableEq

/-- The `DocViewer` render function (lines 56-147): with no active file
(`files[activeFileIndex]` undefined) the no-document fallback renders;
otherwise a PDF with a ready object URL renders the PDF pane, a spreadsheet
with parsed rows renders the table, and anything else renders the
filename placeholder. -/
def docViewerPane (files : List String) (activeFileIndex : Nat)
    (rs : RenderState) : ViewerPane :=
  match files.get? activeFileIndex with
  | none => ViewerPane.noDocument
  | some f =>
      let isPdf := jsEndsWith (jsToLowerCase f) ".pdf"
      let isExcel := jsEndsWith (jsToLowerCase f) ".xlsx" ||
        jsEndsWith (jsToLowerCase f) ".xls"
      match isPdf, rs.fileUrl with
      | true, some url => ViewerPane.pdfPane url rs.pageNumber
      | _, _ =>
          match isExcel, rs.excelData with
          | true, some rows => ViewerPane.excelPane rows
          | _, _ => ViewerPane.placeholder f

/-! PDF page navigation of `DocViewer` (lines 52-54 and 103-123). -/

/-- PDF navigation state: the learned page count (0 until the document load
succeeds) and the displayed page number. -/
structure PdfNavState where
  numPages : Nat
  pageNumber : Nat
  deriving Repr, DecidableEq

/-- Navigation state right after the activation reset (`setNumPages(0)`,
`setPageNumber(1)`). -/
def resetNavState : PdfNavState := { numPages := 0, pageNumber := 1 }

/-- The `onDocumentLoadSuccess` callback: the total page count is learned. -/
def onDocumentLoadSuccess (s : PdfNavState) (n : Nat) : PdfNavState :=
  { s with numPages := n }

/-- Disable condition of the back control (`disabled={pageNumber <= 1}`). -/
def prevDisabled (s : PdfNavState) : Bool := s.pageNumber ≤ 1

/-- Disable condition of the forward control
(`disabled={pageNumber >= numPages}`). -/
def nextDisabled (s : PdfNavState) : Bool := s.pageNumber ≥ s.numPages

/-- Click on the back control: a disabled button does nothing, an enabled one
decrements the page number. -/
def clickPrev (s : PdfNavState) : PdfNavState :=
  if prevDisabled s then s else { s with pageNumber := s.pageNumber - 1 }

/-- Click on the forward control: a disabled button does nothing, an enabled
one increments the page number. -/
def clickNext (s : PdfNavState) : PdfNavState :=
  if nextDisabled s then s else { s with pageNumber := s.pageNumber + 1 }

/-- Reachable navigation states of one PDF preview session: the activation
reset, a document-load success (which fires once, while the count is still
unlearned), and clicks on the two controls. -/
inductive NavReachable : PdfNavState → Prop where
  | reset : NavReachable resetNavState
  | load (s : PdfNavState) (n : Nat) :
      NavReachable s → s.numPages = 0 → NavReachable (onDocumentLoadSuccess s n)
  | back (s : PdfNavState) : NavReachable s → NavReachable (clickPrev s)
  | forward (s : PdfNavState) : NavReachable s → NavReachable (clickNext s)

/-! Extraction form: save action and status lifecycle
(`ExtractionForm.tsx` lines 25 and 52-64). -/

/-- Save Status enumeration of `ExtractionForm.tsx` line 25. -/
inductive SaveStatus where
  | idle : SaveStatus
  | saving : SaveStatus
  | success : SaveStatus
  | error : SaveStatus
  deriving Repr, DecidableEq

/-- Local state of the extraction form: current (possibly user-edited) form
values and the transient save status. -/
structure FormComponentState where
  formValues : ShipmentData
  saveStatus : SaveStatus
  deriving Repr, DecidableEq

/-- Delay of the automatic return to idle
(`setTimeout(() => setSaveStatus('idle'), 3000)`). -/
def saveResetDelayMs : Nat := 3000

/-- Requested URL of the save POST (`axios.post('/save-shipment', ...)`),
a relative URL. -/
def saveEndpointPath : String := "/save-shipment"

/-- Result of one run of `handleSaveToBackend`: the successive form states
(saving, terminal, after-timer), the POSTed path and body, and the scheduled
timer delay. -/
structure SaveRun where
  states : List FormComponentState
  postedPath : String
  postedBody : ShipmentData
  resetDelayMs : Nat
  deriving Repr, DecidableEq

/-- The `handleSaveToBackend` handler (`ExtractionForm.tsx` lines 52-64),
embedded with the request outcome (`ok`) explicit: status goes to `saving`,
the current values are POSTed to the save path, the terminal status is
`success` or `error`, and a 3000 ms timer schedules the return to `idle`;
the form values themselves are never written. -/
def handleSaveToBackend (fs : FormComponentState) (ok : Bool) : SaveRun :=
  let s1 := { fs with saveStatus := SaveStatus.saving }
  let s2 := { s1 with saveStatus :=
    if ok then SaveStatus.success else SaveStatus.error }
  let s3 := { s2 with saveStatus := SaveStatus.idle }
  { states := [s1, s2, s3]
    postedPath := saveEndpointPath
    postedBody := fs.formValues
    resetDelayMs := saveResetDelayMs }

/-- Disable condition of the Save button
(`disabled={saveStatus === 'saving' || saveStatus === 'success'}`). -/
def saveButtonDisabled (st : SaveStatus) : Bool :=
  st = SaveStatus.saving || st = SaveStatus.success

/-! Axios URL resolution and the configured base origin.  The axios client
resolves every request URL with `buildFullPath`: a URL matching the absolute
pattern (optional scheme followed by two slashes) is used verbatim and the
configured `baseURL` is ignored; only relative URLs are combined with the
base. -/

/-- Tail of the axios absolute-URL pattern after the leading letter: scheme
characters (letters, digits, plus, minus, dot) followed by a colon and two
slashes. -/
def schemeRest : List Char → Bool
  | ':' :: '/' :: '/' :: _ => true
  | c :: rest =>
      (c.isAlphanum || c == '+' || c == '-' || c == '.') && schemeRest rest
  | [] => false

/-- Axios `isAbsoluteURL`: the URL matches, case-insensitively, an optional
scheme (a letter then scheme characters and a colon) followed by `//`. -/
def isAbsoluteURL (url : String) : Bool :=
  match (jsToLowerCase url).toList with
  | '/' :: '/' :: _ => true
  | c :: rest => c.isAlpha && schemeRest rest
  | [] => false

/-- Axios `combineURLs`: trailing slashes of the base and leading slashes of
a non-empty relative URL are trimmed around a single joining slash. -/
def combineURLs (baseURL relativeURL : String) : String :=
  if relativeURL = "" then baseURL
  else
    String.mk ((baseURL.toList.reverse.dropWhile (fun c => c == '/')).reverse)
      ++ "/" ++ String.mk (relativeURL.toList.dropWhile (fun c => c == '/'))

/-- Axios `buildFullPath`: a configured base URL applies only to relative
request URLs. -/
def buildFullPath (baseURL requestedURL : String) : String :=
  if baseURL ≠ "" && !isAbsoluteURL requestedURL then
    combineURLs baseURL requestedURL
  else requestedURL

/-- The configured base URL of `main.tsx` line 8:
`axios.defaults.baseURL = import.meta.env.VITE_API_URL || 'http://localhost:8080'`
(a missing or empty environment value falls back to the local default). -/
def configuredBaseURL (viteApiUrl : Option String) : String :=
  match viteApiUrl with
  | some u => if u = "" then "http://localhost:8080" else u
  | none => "http://localhost:8080"

/-- Full URL the extraction POST of `App.tsx` line 37 is issued against under
a configured base URL. -/
def extractRequestURL (baseURL : String) : String :=
  buildFullPath baseURL extractEndpointURL

/-- Full URL the save POST of `ExtractionForm.tsx` line 56 is issued against
under a configured base URL. -/
def saveRequestURL (baseURL : String) : String :=
  buildFullPath baseURL saveEndpointPath

/-- Split a character list at the first occurrence of `://`, returning the
part before it and the part after it. -/
def splitScheme : List Char → Option (List Char × List Char)
  | ':' :: '/' :: '/' :: rest => some ([], rest)
  | c :: rest =>
      match splitScheme rest with
      | some (sch, tail) => some (c :: sch, tail)
      | none => none
  | [] => none

/-- Origin (scheme, host, port) of a URL: the scheme and the authority part
up to the first path slash. -/
def originOf (url : String) : String :=
  match splitScheme url.toList with
  | some (sch, rest) =>
      String.mk sch ++ "://" ++ String.mk (rest.takeWhile (fun c => c != '/'))
  | none => ""

/-! Theorems. -/

/-- C3: for every file selection that lacks a PDF or lacks a spreadsheet
(extensions compared case-insensitively), submission is rejected with the
blocking validation alert as the only effect — no network request is issued —
and the shell state (file set, extracted record, loading flag) is returned
unchanged; the handler returns normally (no thrown error). -/
theorem C3_invalid_selection_rejected (s : AppState) (fs : List String)
    (o : Option ShipmentData) (h : hasPdf fs = false ∨ hasExcel fs = false) :
    handleFilesSelected s fs o = (s, [Event.validationAlert]) := by
  rcases h with h | h <;> simp [handleFilesSelected, h]

/-- Witness for C3 at the selection `["a.pdf"]`, which has a PDF but no
spreadsheet. -/
theorem C3_invalid_selection_rejected_witness :
    (hasPdf ["a.pdf"] = false ∨ hasExcel ["a.pdf"] = false) ∧
    handleFilesSelected initialState ["a.pdf"] none =
      (initialState, [Event.validationAlert]) :=
  ⟨Or.inr (by decide),
   C3_invalid_selection_rejected initialState ["a.pdf"] none (Or.inr (by decide))⟩

/-- C4: on every accepted submission the Extracted Record is `none` in the
state in which the extraction request is issued; on failure the settled
record equals the pre-request record (`none`), and on success the record is
replaced wholesale by the response body. -/
theorem C4_record_nulled_then_settled (s : AppState) (fs : List String)
    (hp : hasPdf fs = true) (hx : hasExcel fs = true) :
    (submitState s fs).data = none ∧
    (handleFilesSelected s fs none).1.data = (submitState s fs).data ∧
    (∀ d : ShipmentData, (handleFilesSelected s fs (some d)).1.data = some d) := by
  refine ⟨rfl, ?_, fun d => ?_⟩ <;>
    simp [handleFilesSelected, hp, hx, settle, submitState]

/-- Witness for C4 at the accepted selection `["a.pdf", "b.xlsx"]`. -/
theorem C4_record_nulled_then_settled_witness :
    hasPdf ["a.pdf", "b.xlsx"] = true ∧ hasExcel ["a.pdf", "b.xlsx"] = true ∧
    (submitState initialState ["a.pdf", "b.xlsx"]).data = none ∧
    (handleFilesSelected initialState ["a.pdf", "b.xlsx"] none).1.data = none ∧
    (handleFilesSelected initialState ["a.pdf", "b.xlsx"]
      (some emptyShipment)).1.data = some emptyShipment := by
  have h := C4_record_nulled_then_settled initialState ["a.pdf", "b.xlsx"]
    (by decide) (by decide)
  exact ⟨by decide, by decide, h.1, h.2.1.trans h.1, h.2.2 emptyShipment⟩

/-- C5: for every file selection with at least one PDF and at least one
spreadsheet, submission proceeds — the extraction POST (all files as repeated
`files` parts) is among the performed effects — the Loading State is `true`
in the pre-request state, and it is `false` in the settled state on both the
success and the failure path. -/
theorem C5_loading_lifecycle (s : AppState) (fs : List String)
    (o : Option ShipmentData) (hp : hasPdf fs = true) (hx : hasExcel fs = true) :
    (submitState s fs).isLoading = true ∧
    (handleFilesSelected s fs o).1.isLoading = false ∧
    Event.extractPost extractEndpointURL (extractFormData fs) ∈
      (handleFilesSelected s fs o).2 := by
  refine ⟨rfl, ?_, ?_⟩ <;>
    cases o <;> simp [handleFilesSelected, hp, hx, settle, submitState]

/-- Witness for C5 at the accepted selection `["a.pdf", "b.xlsx"]`, failure
outcome. -/
theorem C5_loading_lifecycle_witness :
    (submitState initialState ["a.pdf", "b.xlsx"]).isLoading = true ∧
    (handleFilesSelected initialState ["a.pdf", "b.xlsx"] none).1.isLoading = false ∧
    Event.extractPost extractEndpointURL (extractFormData ["a.pdf", "b.xlsx"]) ∈
      (handleFilesSelected initialState ["a.pdf", "b.xlsx"] none).2 :=
  C5_loading_lifecycle initialState ["a.pdf", "b.xlsx"] none (by decide) (by decide)

/-- C8: a failing save runs the status through saving, error, idle, a
successful save through saving, success, idle; the automatic return to idle
is scheduled with the fixed 3000 ms delay on both paths, and the in-memory
form values are identical in every state of the failing run. -/
theorem C8_save_status_lifecycle (fs : FormComponentState) :
    (handleSaveToBackend fs false).states =
      [{ fs with saveStatus := SaveStatus.saving },
       { fs with saveStatus := SaveStatus.error },
       { fs with saveStatus := SaveStatus.idle }] ∧
    (handleSaveToBackend fs true).states =
      [{ fs with saveStatus := SaveStatus.saving },
       { fs with saveStatus := SaveStatus.success },
       { fs with saveStatus := SaveStatus.idle }] ∧
    (handleSaveToBackend fs false).states.map FormComponentState.formValues =
      [fs.formValues, fs.formValues, fs.formValues] ∧
    (handleSaveToBackend fs false).resetDelayMs = 3000 ∧
    (handleSaveToBackend fs true).resetDelayMs = 3000 :=
  ⟨rfl, rfl, rfl, rfl, rfl⟩

/-- C9: while an extraction request is in flight, a drop event and a
file-picker change event are both ignored: the shell state is returned
unchanged (in particular the loading flag stays `true`, so the in-flight
request is not cancelled) and no effect is performed (no new extraction, no
queued work). -/
theorem C9_inflight_intake_ignored (s : AppState) (dropped : List String)
    (tf : Option (List String)) (o : Option ShipmentData)
    (h : s.isLoading = true) :
    handleDrop s dropped o = (s, []) ∧ handleChange s tf o = (s, []) := by
  constructor
  · simp [handleDrop, h]
  · cases tf <;> simp [handleChange, h]

/-- Witness for C9 at a loading state and the selection `["x.pdf", "y.xlsx"]`
(which would be accepted were it not ignored). -/
theorem C9_inflight_intake_ignored_witness :
    handleDrop { initialState with isLoading := true } ["x.pdf", "y.xlsx"] none =
      ({ initialState with isLoading := true }, []) ∧
    handleChange { initialState with isLoading := true }
      (some ["x.pdf", "y.xlsx"]) none =
      ({ initialState with isLoading := true }, []) :=
  C9_inflight_intake_ignored { initialState with isLoading := true }
    ["x.pdf", "y.xlsx"] (some ["x.pdf", "y.xlsx"]) none rfl

/-- C10: when the Reset / New Upload button is clickable (file set non-empty,
no extraction in flight) a click empties the file set and changes nothing
else — the Active Selection Index, the Extracted Record and the Loading
State keep their prior values; and while an extraction is in flight the
disabled button does nothing at all. -/
theorem C10_reset_only_clears_files (s : AppState)
    (hne : s.files ≠ []) (hnl : s.isLoading = false) :
    (resetClick s).files = [] ∧
    (resetClick s).activeFileIndex = s.activeFileIndex ∧
    (resetClick s).data = s.data ∧
    (resetClick s).isLoading = s.isLoading ∧
    (∀ t : AppState, t.isLoading = true → resetClick t = t) := by
  have hcond : (s.files.isEmpty || s.isLoading) = false := by
    simp [List.isEmpty_iff, hne, hnl]
  refine ⟨?_, ?_, ?_, ?_, fun t ht => ?_⟩
  · simp [resetClick, hcond]
  · simp [resetClick, hcond]
  · simp [resetClick, hcond]
  · simp [resetClick, hcond]
  · simp [resetClick, ht]

/-- Witness for C10 at a state with one file, index 5, no request in
flight. -/
theorem C10_reset_only_clears_files_witness :
    (resetClick { files := ["a.pdf"], activeFileIndex := 5, data := none, isLoading := false }).files = [] ∧
    (resetClick { files := ["a.pdf"], activeFileIndex := 5, data := none, isLoading := false }).activeFileIndex = 5 := by
  have h := C10_reset_only_clears_files
    { files := ["a.pdf"], activeFileIndex := 5, data := none, isLoading := false }
    (by decide) rfl
  exact ⟨h.1, h.2.1⟩

/-- Helper: `handleFilesSelected` never writes the Active Selection Index. -/
theorem handleFilesSelected_fst_activeFileIndex (s : AppState)
    (fs : List String) (o : Option ShipmentData) :
    (handleFilesSelected s fs o).1.activeFileIndex = s.activeFileIndex := by
  unfold handleFilesSelected
  split
  · rfl
  · cases o <;> rfl

/-- C1 as stated is false: the state reached by uploading
`["a.pdf", "b.xlsx", "c.pdf"]`, clicking the third tab and then clicking
Reset / New Upload has an empty file set but Active Selection Index 2, which
is neither a valid index into the new set nor 0. -/
theorem C1_counterexample :
    ¬ (∀ s : AppState, Reachable s →
        (s.activeFileIndex < s.files.length ∨ s.activeFileIndex = 0)) := by
  intro h
  have hr : Reachable (resetClick (tabClick
      (handleDrop initialState ["a.pdf", "b.xlsx", "c.pdf"] none).1 2)) :=
    Reachable.reset _ (Reachable.tab _ 2
      (Reachable.upload initialState ["a.pdf", "b.xlsx", "c.pdf"] none
        Reachable.init rfl))
  exact absurd (h _ hr) (by decide)

/-- C1 amended: the set-changing actions (accepted upload, Reset) and the
in-flight transition all leave the Active Selection Index unchanged — it is
never reset to 0 and may therefore be out of bounds for the new set; the
index is mutated only by tab clicks, which always produce a valid index into
the current set; and whenever the index is out of bounds the Document
Preview renders the no-document fallback rather than dereferencing the
set. -/
theorem C1_index_not_reset_but_guarded (s : AppState) (fs : List String)
    (tf : Option (List String)) (o : Option ShipmentData) (i : Nat)
    (rs : RenderState) :
    (handleDrop s fs o).1.activeFileIndex = s.activeFileIndex ∧
    (handleChange s tf o).1.activeFileIndex = s.activeFileIndex ∧
    (resetClick s).activeFileIndex = s.activeFileIndex ∧
    (submitState s fs).activeFileIndex = s.activeFileIndex ∧
    (i < s.files.length →
      (tabClick s i).activeFileIndex < (tabClick s i).files.length) ∧
    (s.files.length ≤ s.activeFileIndex →
      docViewerPane s.files s.activeFileIndex rs = ViewerPane.noDocument) := by
  refine ⟨?_, ?_, ?_, rfl, ?_, ?_⟩
  · unfold handleDrop
    split
    · rfl
    · exact handleFilesSelected_fst_activeFileIndex s fs o
  · unfold handleChange
    cases tf with
    | none => rfl
    | some l =>
        dsimp only
        split
        · rfl
        · exact handleFilesSelected_fst_activeFileIndex s l o
  · unfold resetClick
    split <;> rfl
  · intro hi
    simp [tabClick, hi]
  · intro hge
    unfold docViewerPane
    rw [List.get?_eq_none.mpr hge]

/-- Witness for C1 amended: a state with two files and index 5 — tab click 1
lands in bounds, the preview falls back, Reset keeps the index. -/
theorem C1_index_not_reset_but_guarded_witness :
    (tabClick { files := ["a.pdf", "b.xlsx"], activeFileIndex := 5, data := none, isLoading := false } 1).activeFileIndex <
      (tabClick { files := ["a.pdf", "b.xlsx"], activeFileIndex := 5, data := none, isLoading := false } 1).files.length ∧
    docViewerPane ["a.pdf", "b.xlsx"] 5 resetRenderState = ViewerPane.noDocument ∧
    (resetClick { files := ["a.pdf", "b.xlsx"], activeFileIndex := 5, data := none, isLoading := false }).activeFileIndex = 5 := by
  have h := C1_index_not_reset_but_guarded
    { files := ["a.pdf", "b.xlsx"], activeFileIndex := 5, data := none, isLoading := false }
    [] none none 1 resetRenderState
  exact ⟨h.2.2.2.2.1 (by decide), h.2.2.2.2.2 (by decide), h.2.2.1⟩

/-- C2 evaluated at a deployed configuration: with the base API origin
configured to `https://backend.example.com`, the save POST resolves against
that origin, but the extraction POST still goes to the hardcoded absolute
URL `http://localhost:8000/process-documents`, whose origin is not the
configured one — the extraction request URL does not depend on the
configured base at all. -/
theorem C2_extraction_origin_hardcoded :
    saveRequestURL (configuredBaseURL (some "https://backend.example.com")) =
      "https://backend.example.com/save-shipment" ∧
    originOf (saveRequestURL (configuredBaseURL (some "https://backend.example.com"))) =
      "https://backend.example.com" ∧
    extractRequestURL (configuredBaseURL (some "https://backend.example.com")) =
      "http://localhost:8000/process-documents" ∧
    originOf (extractRequestURL (configuredBaseURL (some "https://backend.example.com"))) =
      "http://localhost:8000" ∧
    originOf (extractRequestURL (configuredBaseURL (some "https://backend.example.com"))) ≠
      originOf (configuredBaseURL (some "https://backend.example.com")) ∧
    (∀ base : String, extractRequestURL base = extractEndpointURL) := by
  refine ⟨by decide, by decide, by decide, by decide, by decide, fun base => ?_⟩
  have habs : isAbsoluteURL extractEndpointURL = true := by decide
  simp [extractRequestURL, buildFullPath, habs]

/-- Helper: reachable PDF navigation states keep the page number at least 1,
and at most the learned page count unless the page is still 1. -/
theorem navReachable_invariant (s : PdfNavState) (h : NavReachable s) :
    1 ≤ s.pageNumber ∧ (s.pageNumber ≤ s.numPages ∨ s.pageNumber = 1) := by
  induction h with
  | reset => exact ⟨Nat.le_refl 1, Or.inr rfl⟩
  | load t n ht h0 ih =>
      simp only [onDocumentLoadSuccess]
      omega
  | back t ht ih =>
      unfold clickPrev prevDisabled at *
      split
      · exact ih
      · rename_i hd
        simp only [decide_eq_true_eq] at hd
        dsimp only
        omega
  | forward t ht ih =>
      unfold clickNext nextDisabled at *
      split
      · exact ih
      · rename_i hd
        simp only [decide_eq_true_eq] at hd
        dsimp only
        omega

/-- C6: in every reachable preview state the page number is at least 1 and
never exceeds the learned total (except that it stays 1 while no total is
learned); the back control is disabled exactly when the page is at most 1
and the forward control exactly when it has reached the total; and every
enabled navigation click lands on a page with `1 ≤ page ≤ total`. -/
theorem C6_page_navigation_bounded (s : PdfNavState) (h : NavReachable s) :
    (1 ≤ s.pageNumber ∧ (s.pageNumber ≤ s.numPages ∨ s.pageNumber = 1)) ∧
    prevDisabled s = decide (s.pageNumber ≤ 1) ∧
    nextDisabled s = decide (s.numPages ≤ s.pageNumber) ∧
    (prevDisabled s = false →
      1 ≤ (clickPrev s).pageNumber ∧ (clickPrev s).pageNumber ≤ s.numPages) ∧
    (nextDisabled s = false →
      1 ≤ (clickNext s).pageNumber ∧ (clickNext s).pageNumber ≤ s.numPages) := by
  obtain ⟨h1, h2⟩ := navReachable_invariant s h
  refine ⟨⟨h1, h2⟩, rfl, rfl, ?_, ?_⟩
  · intro hd
    simp only [prevDisabled, decide_eq_false_iff_not] at hd
    simp only [clickPrev, prevDisabled]
    rw [if_neg (by simpa using hd)]
    dsimp only
    omega
  · intro hd
    simp only [nextDisabled, decide_eq_false_iff_not] at hd
    simp only [clickNext, nextDisabled]
    rw [if_neg (by simpa using hd)]
    dsimp only
    omega

/-- Witness for C6: after the activation reset, learning 3 pages and one
forward click, the state is reachable and the forward click from it stays in
bounds. -/
theorem C6_page_navigation_bounded_witness :
    1 ≤ (clickNext (onDocumentLoadSuccess resetNavState 3)).pageNumber ∧
    (clickNext (onDocumentLoadSuccess resetNavState 3)).pageNumber ≤
      (onDocumentLoadSuccess resetNavState 3).numPages := by
  have h := C6_page_navigation_bounded (onDocumentLoadSuccess resetNavState 3)
    (NavReachable.load resetNavState 3 NavReachable.reset rfl)
  exact h.2.2.2.2 (by decide)

/-- C7: activating any file resets every per-file render field before the
extension is inspected — the resulting render state has page number 1, page
count 0, no parsed spreadsheet rows, and an object URL only when the new
file is a PDF (a fresh one for that file); in particular the result is
independent of the previous render state. -/
theorem C7_activation_resets_render_state (prev prevAlt : RenderState)
    (f : String) :
    (docViewerEffect prev (some f)).1.pageNumber = 1 ∧
    (docViewerEffect prev (some f)).1.numPages = 0 ∧
    (docViewerEffect prev (some f)).1.excelData = none ∧
    (docViewerEffect prev (some f)).1.fileUrl =
      (if jsEndsWith (jsToLowerCase f) ".pdf" then some (createObjectURL f)
       else none) ∧
    docViewerEffect prev (some f) = docViewerEffect prevAlt (some f) := by
  by_cases hpdf : jsEndsWith (jsToLowerCase f) ".pdf" = true
  · simp [docViewerEffect, hpdf, resetRenderState]
  · by_cases hxl : (jsEndsWith (jsToLowerCase f) ".xlsx" ||
        jsEndsWith (jsToLowerCase f) ".xls") = true
    · simp [docViewerEffect, hpdf, hxl, resetRenderState]
    · simp [docViewerEffect, hpdf, hxl, resetRenderState]

end LogisticsExtractor
